import Mathlib

/-!
Formal model of the RAG chatbot backend (`backend/vector_store.py`,
`backend/rag_pipeline.py` and the `/query` handler of `backend/main.py`).

Modelling conventions:
* Python floats are idealised as exact numbers: embedding vectors are `List Int`
  and similarity scores live in `WithBot Int`, where `⊥` stands for the `-inf`
  sentinel that FAISS places in the score slots of padding results.  The single
  float division in the code (the confidence mean) lands in `WithBot ℚ`.
* `SentenceTransformer.encode` (an external capability, deterministic for a
  fixed model) is a function parameter `encode : String → List Int`; the variant
  `String → Except String (List Int)` models an embedder call that may raise.
* `faiss.IndexFlatIP` is modelled by the list of inserted vectors: `add` appends
  and `search` is an exact top-k by inner product, returned in descending score
  order with ties broken by ascending vector index, padded with `(-1, ⊥)`
  entries up to length `k` when fewer than `k` vectors are stored (FAISS pads
  missing results with label `-1` and sentinel scores).
* The OpenAI call `_call_openai` is a parameter
  `g : String → String → Except String String` taking the system and user
  prompt; `Except.error e` models a raised exception with message `e`.
* Python dicts keyed by strings (`doc_to_chunks`, `documents_db`) are
  insertion-ordered association lists; chunk dicts are the structure `Chunk`
  (the metadata keys actually used: `source`, `chunk_id`, `total_chunks`,
  `doc_id`, `deleted`, where a missing `deleted` key is the default `false`,
  matching `metadata.get("deleted", False)`).
-/

namespace RAG

/-- A chunk as produced by `DocumentProcessor.process_document`: `content` plus
the metadata keys `source`, `chunk_id`, `total_chunks` (no `deleted` key yet). -/
structure RawChunk where
  content : String
  source : String
  chunk_id : Nat
  total_chunks : Nat
deriving DecidableEq, Repr

/-- A stored chunk dict after `VectorStore.add_documents` stamped the metadata:
`doc_id` was added, and `deleted` models `metadata.get("deleted", False)`. -/
structure Chunk where
  content : String
  source : String
  chunk_id : Nat
  total_chunks : Nat
  doc_id : String
  deleted : Bool
deriving DecidableEq, Repr

/-- State of `VectorStore`: the FAISS index (list of inserted vectors, in
insertion order), `self.documents`, and `self.doc_to_chunks`. -/
structure VectorStore where
  index : List (List Int)
  documents : List Chunk
  doc_to_chunks : List (String × List Nat)
deriving DecidableEq, Repr

/-- The freshly constructed store of `VectorStore.__init__`. -/
def emptyStore : VectorStore :=
  { index := [], documents := [], doc_to_chunks := [] }

/-- `VectorStore.is_initialized`: `self.index.ntotal > 0`. -/
def VectorStore.is_initialized (vs : VectorStore) : Bool :=
  decide (0 < vs.index.length)

/-- Inner product of two vectors, the similarity used by `IndexFlatIP`. -/
def innerProduct (u v : List Int) : Int :=
  (List.zipWith (fun a b => a * b) u v).sum

/-- Result ordering of the FAISS model: higher score first, ties by ascending
vector index (FAISS flat search is deterministic; this fixes its tie order). -/
def resLE (a b : Int × WithBot Int) : Prop :=
  b.2 < a.2 ∨ (a.2 = b.2 ∧ a.1 ≤ b.1)

instance : DecidableRel resLE := fun a b => by
  unfold resLE; infer_instance

instance : IsTotal (Int × WithBot Int) resLE := by
  constructor
  intro a b
  rcases lt_trichotomy a.2 b.2 with h | h | h
  · exact Or.inr (Or.inl h)
  · rcases le_total a.1 b.1 with h2 | h2
    · exact Or.inl (Or.inr ⟨h, h2⟩)
    · exact Or.inr (Or.inr ⟨h.symm, h2⟩)
  · exact Or.inl (Or.inl h)

instance : IsTrans (Int × WithBot Int) resLE := by
  constructor
  rintro a b c (hab | ⟨hab, hab2⟩) (hbc | ⟨hbc, hbc2⟩)
  · exact Or.inl (hbc.trans hab)
  · exact Or.inl (hbc ▸ hab)
  · exact Or.inl (hab ▸ hbc)
  · exact Or.inr ⟨hab.trans hbc, hab2.trans hbc2⟩

/-- Model of `faiss.IndexFlatIP.search(query, k)` on the stored vectors:
exact top-k by inner product, descending score, ties by ascending index;
when fewer than `k` vectors are stored the result is padded to length `k`
with label `-1` and the `-inf` score sentinel (modelled `⊥`). -/
def faissSearch (index : List (List Int)) (q : List Int) (k : Nat) :
    List (Int × WithBot Int) :=
  let scored := index.enum.map fun p =>
    ((p.1 : Int), ((innerProduct q p.2 : Int) : WithBot Int))
  let top := (List.insertionSort resLE scored).take k
  top ++ List.replicate (k - top.length) ((-1 : Int), (⊥ : WithBot Int))

/-- Python list indexing `l[i]` with an `Int` index: negative indices count
from the end; `none` is an `IndexError`. -/
def pyIndex (l : List Chunk) (i : Int) : Option Chunk :=
  if 0 ≤ i then l[i.toNat]?
  else if (-i).toNat ≤ l.length then l[l.length - (-i).toNat]?
  else none

/-- The body of the result loop of `VectorStore.similarity_search` (lines
122-127): for a `(score, idx)` pair of the FAISS search,
`if idx < len(self.documents)` keep `(self.documents[idx], score)`.  Note the
guard does not exclude the FAISS padding label `-1`, and `self.documents[-1]`
is Python negative indexing. -/
def resolveHit (vs : VectorStore) (p : Int × WithBot Int) :
    Option (Chunk × WithBot Int) :=
  if p.1 < (vs.documents.length : Int) then
    (pyIndex vs.documents p.1).map fun d => (d, p.2)
  else none

/-- The result loop of `VectorStore.similarity_search` (lines 121-129). -/
def rankChunks (vs : VectorStore) (qe : List Int) (k : Nat) :
    List (Chunk × WithBot Int) :=
  (faissSearch vs.index qe k).filterMap (resolveHit vs)

/-- `VectorStore.similarity_search(query, k)`: return `[]` when the store is
not initialised, otherwise encode the query and run the FAISS search. -/
def similarity_search (encode : String → List Int) (vs : VectorStore)
    (query : String) (k : Nat) : List (Chunk × WithBot Int) :=
  if vs.is_initialized then rankChunks vs (encode query) k else []

/-- `VectorStore.similarity_search` with a fallible embedder: the code has no
try/except around `self.model.encode`, so an embedding failure propagates. -/
def similarity_searchE (encodeE : String → Except String (List Int))
    (vs : VectorStore) (query : String) (k : Nat) :
    Except String (List (Chunk × WithBot Int)) :=
  if vs.is_initialized then (encodeE query).map fun qe => rankChunks vs qe k
  else .ok []

/-- Lookup in an insertion-ordered association list (Python dict access). -/
def assocFind (m : List (String × List Nat)) (k : String) : Option (List Nat) :=
  match m with
  | [] => none
  | (k1, v1) :: rest => if k1 = k then some v1 else assocFind rest k

/-- Python dict assignment `m[k] = v`: replace in place or append. -/
def assocSet (m : List (String × List Nat)) (k : String) (v : List Nat) :
    List (String × List Nat) :=
  match m with
  | [] => [(k, v)]
  | (k1, v1) :: rest =>
    if k1 = k then (k, v) :: rest else (k1, v1) :: assocSet rest k v

/-- `VectorStore.add_documents(chunks, doc_id)`: embed every chunk content,
append the embeddings to the FAISS index, append the chunk dicts (stamped with
`doc_id`) to `self.documents`, and record the new slot indices
`start_idx .. start_idx + len(chunks) - 1` under `doc_id`. -/
def add_documents (encode : String → List Int) (vs : VectorStore)
    (chunks : List RawChunk) (doc_id : String) : VectorStore :=
  let embeddings := chunks.map fun c => encode c.content
  let start_idx := vs.documents.length
  let newDocs := chunks.map fun c =>
    { content := c.content, source := c.source, chunk_id := c.chunk_id,
      total_chunks := c.total_chunks, doc_id := doc_id, deleted := false : Chunk }
  { index := vs.index ++ embeddings
    documents := vs.documents ++ newDocs
    doc_to_chunks := assocSet vs.doc_to_chunks doc_id
      (List.range' start_idx chunks.length) }

/-- One iteration of the marking loop of `VectorStore.delete_document`:
`if idx < len(self.documents): self.documents[idx]["metadata"]["deleted"] = True`. -/
def markOne (ds : List Chunk) (i : Nat) : List Chunk :=
  if h : i < ds.length then ds.set i { ds.get ⟨i, h⟩ with deleted := true }
  else ds

/-- `VectorStore.delete_document(doc_id)`: unknown ids are reported and the
store is unchanged; otherwise every recorded chunk index of the document is
marked deleted and the id is removed from `doc_to_chunks`. -/
def delete_document (vs : VectorStore) (doc_id : String) : VectorStore :=
  match assocFind vs.doc_to_chunks doc_id with
  | none => vs
  | some chunk_indices =>
    { index := vs.index
      documents := chunk_indices.foldl markOne vs.documents
      doc_to_chunks := vs.doc_to_chunks.filter fun p => p.1 != doc_id }

/-- One chat-history entry (`{"role": ..., "content": ...}`). -/
structure Msg where
  role : String
  content : String
deriving DecidableEq, Repr

/-- One source citation built by `RAGPipeline.query` STEP 3. -/
structure Citation where
  source : String
  chunk_id : Nat
  confidence : WithBot Int
  preview : String
deriving DecidableEq, Repr

/-- The dict returned by `RAGPipeline.query`. -/
structure Answer where
  answer : String
  sources : List Citation
  confidence : WithBot ℚ
deriving DecidableEq, Repr

/-- The canned answer when the search returns no results (lines 67-72). -/
def noInfoAnswer : String :=
  "I couldn\'t find any relevant information in the uploaded documents to answer your question. Could you try rephrasing your question or upload more documents?"

/-- The canned answer when every retrieved chunk is deleted (lines 81-86). -/
def deletedAnswer : String :=
  "I found some documents, but they seem to have been deleted. Please upload some documents first!"

/-- The answer text of the generation-failure path (lines 145-151). -/
def genErrorAnswer (e : String) : String :=
  "I found relevant documents but encountered an error while generating the response: " ++ e

/-- Preview of a chunk: first 200 characters, with an ellipsis if truncated. -/
def preview (content : String) : String :=
  if content.length > 200 then content.take 200 ++ "..." else content

/-- The citation record appended for one surviving `(doc, score)` pair. -/
def mkCitation (p : Chunk × WithBot Int) : Citation :=
  { source := p.1.source, chunk_id := p.1.chunk_id, confidence := p.2,
    preview := preview p.1.content }

/-- One formatted context entry of STEP 3. -/
def contextEntry (i : Nat) (doc : Chunk) : String :=
  "[Source " ++ toString (i + 1) ++ ": " ++ doc.source ++ "]\n" ++ doc.content

/-- The separator `"="*50`. -/
def sepLine : String := String.mk (List.replicate 50 '=')

/-- Fold step of `str.title` (ASCII model): the first letter of each run of
letters is uppercased, later letters lowercased. -/
def titleStep (acc : List Char × Bool) (ch : Char) : List Char × Bool :=
  if ch.isAlpha then
    ((if acc.2 then ch.toLower else ch.toUpper) :: acc.1, true)
  else (ch :: acc.1, false)

/-- Python `str.title()` (ASCII model; the code only applies it to role tags). -/
def titleCase (s : String) : String :=
  String.mk (s.data.foldl titleStep ([], false)).1.reverse

/-- STEP 4 of `RAGPipeline.query`: the chat-history context, built from the
last four messages; empty history yields the empty string. -/
def historyContext (chat_history : List Msg) : String :=
  if chat_history.isEmpty then ""
  else
    let recent := chat_history.drop (chat_history.length - 4)
    let history_parts := recent.map fun m => titleCase m.role ++ ": " ++ m.content
    if history_parts.isEmpty then ""
    else "\n\nPrevious conversation:\n" ++ String.intercalate "\n" history_parts

/-- The fixed system prompt of `RAGPipeline._create_system_prompt`. -/
def systemPrompt : String :=
  "You are a helpful AI assistant that answers questions based ONLY on the provided document context.\n\nYour job is to:\n1. Read through the provided context carefully\n2. Answer the user\'s question using ONLY information from the context\n3. Be accurate and comprehensive\n4. If the context doesn\'t contain enough information, say so honestly\n5. Synthesize information from multiple sources when relevant\n6. Maintain a helpful and professional tone\n\nImportant rules:\n- NEVER make up information that\'s not in the context\n- If you\'re unsure, say \"Based on the provided documents...\"\n- If the context is insufficient, suggest what additional information might be needed\n- Always be honest about the limitations of your knowledge based on the provided context"

/-- `RAGPipeline._create_user_prompt(question, context, history_context)`. -/
def createUserPrompt (question context history_context : String) : String :=
  let prompt_parts :=
    ["Please answer the following question based on the document context provided below."]
  let prompt_parts := prompt_parts ++
    (if history_context.trim ≠ "" then
      ["\nFor additional context, here\'s our recent conversation:" ++ history_context]
    else [])
  let prompt_parts := prompt_parts ++ ["\nDocument context:" ++ context]
  let prompt_parts := prompt_parts ++ ["\nQuestion: " ++ question]
  let prompt_parts := prompt_parts ++
    ["\nPlease provide a helpful and accurate answer based on the context above. If you reference specific information, it should come from the provided sources."]
  String.intercalate "\n" prompt_parts

/-- Python `sum(...)` over the scores (float addition; `⊥` models `-inf`,
which is absorbing, as in float arithmetic). -/
def sumScores : List (WithBot Int) → WithBot Int
  | [] => ((0 : Int) : WithBot Int)
  | s :: rest => s + sumScores rest

/-- `sum(score for _, score in valid_results) / len(valid_results)` as an exact
number: `⊥` (`-inf`) propagates through the division. -/
def avgScore (l : List (WithBot Int)) : WithBot ℚ :=
  WithBot.map (fun s : Int => (s : ℚ) / (l.length : ℚ)) (sumScores l)

/-- `RAGPipeline.query` after STEP 1 (the search results are passed in):
the no-results return, the deleted filter, the deleted-results return, context
and citation building, and the generation call with its try/except. -/
def queryAfterSearch (g : String → String → Except String String)
    (question : String) (chat_history : List Msg)
    (search_results : List (Chunk × WithBot Int)) : Answer :=
  if search_results.isEmpty then
    { answer := noInfoAnswer, sources := [], confidence := 0 }
  else
    let valid_results := search_results.filter fun p => !p.1.deleted
    if valid_results.isEmpty then
      { answer := deletedAnswer, sources := [], confidence := 0 }
    else
      let context_parts := valid_results.enum.map fun p => contextEntry p.1 p.2.1
      let sources := valid_results.map mkCitation
      let context := "\n\n" ++ sepLine ++ String.intercalate "\n\n" context_parts
      let history_context := historyContext chat_history
      let user_prompt := createUserPrompt question context history_context
      match g systemPrompt user_prompt with
      | .ok response =>
        { answer := response, sources := sources,
          confidence := avgScore (valid_results.map Prod.snd) }
      | .error e =>
        { answer := genErrorAnswer e, sources := sources, confidence := 0 }

/-- `RAGPipeline.query(question, chat_history)` with an infallible embedder. -/
def query (encode : String → List Int) (g : String → String → Except String String)
    (vs : VectorStore) (question : String) (chat_history : List Msg) : Answer :=
  queryAfterSearch g question chat_history (similarity_search encode vs question 5)

/-- `RAGPipeline.query` with a fallible embedder: the try/except of the code
covers only the generation call, so a failure raised inside
`similarity_search` (STEP 1) propagates to the caller. -/
def queryE (encodeE : String → Except String (List Int))
    (g : String → String → Except String String) (vs : VectorStore)
    (question : String) (chat_history : List Msg) : Except String Answer :=
  (similarity_searchE encodeE vs question 5).map
    (queryAfterSearch g question chat_history)

/-- Metadata record of `documents_db` in `backend/main.py`. -/
structure DocumentInfo where
  id : String
  filename : String
  chunks_count : Nat
  status : String
deriving DecidableEq, Repr

/-- Outcome of a FastAPI endpoint: a response body or an `HTTPException`. -/
inductive HTTPResult where
  | response (answer : String) (sources : List Citation) (confidence : WithBot ℚ)
  | httpError (status_code : Nat) (detail : String)
deriving DecidableEq, Repr

/-- The 400 detail of `/query` when no documents were uploaded. -/
def noDocsDetail : String :=
  "No documents have been uploaded yet. Please upload some documents first!"

/-- The `/query` endpoint `query_documents` of `backend/main.py`: rejects an
empty `documents_db` with a 400, runs the pipeline, and converts any exception
escaping `rag_pipeline.query` into an HTTP 500 error. -/
def query_documents (encodeE : String → Except String (List Int))
    (g : String → String → Except String String)
    (documents_db : List (String × DocumentInfo)) (vs : VectorStore)
    (question : String) (chat_history : List Msg) : HTTPResult :=
  if documents_db.isEmpty then .httpError 400 noDocsDetail
  else
    match queryE encodeE g vs question chat_history with
    | .ok r => .response r.answer r.sources r.confidence
    | .error e =>
      .httpError 500 ("An error occurred while processing your question: " ++ e)

/-! ### Concrete instances used by counterexamples and witnesses -/

/-- A concrete deterministic embedder: `"alpha"` maps to `[2]`, everything
else to `[1]`. -/
def encA : String → List Int := fun s => if s = "alpha" then [2] else [1]

/-- `encA` as an embedder that never raises. -/
def encAE : String → Except String (List Int) := fun s => .ok (encA s)

/-- An embedder whose model call always raises. -/
def encFailE : String → Except String (List Int) := fun _ => .error "EmbeddingError"

/-- A generation adapter that always succeeds. -/
def gOk : String → String → Except String String := fun _ _ => .ok "generated answer"

/-- A generation adapter that always raises. -/
def gFail : String → String → Except String String := fun _ _ => .error "boom"

/-- A store holding the single-chunk document `"doc1"`. -/
def storeOne : VectorStore :=
  add_documents encA emptyStore [⟨"hello world", "a.txt", 0, 1⟩] "doc1"

/-- `storeOne` after soft-deleting `"doc1"`. -/
def storeOneDeleted : VectorStore := delete_document storeOne "doc1"

/-- A store holding document `"docA"` (chunk `"alpha"`, which scores highest)
and document `"docB"` (chunk `"beta"`). -/
def storeAB : VectorStore :=
  add_documents encA
    (add_documents encA emptyStore [⟨"alpha", "a.txt", 0, 1⟩] "docA")
    [⟨"beta", "b.txt", 0, 1⟩] "docB"

/-- `storeAB` after soft-deleting `"docA"` (the higher-ranked document). -/
def storeABdelA : VectorStore := delete_document storeAB "docA"

/-- `storeAB` after soft-deleting `"docB"` (the most recently added one). -/
def storeABdelB : VectorStore := delete_document storeAB "docB"

/-- Metadata entry for `storeOne`'s document. -/
def docInfo1 : DocumentInfo :=
  { id := "doc1", filename := "a.txt", chunks_count := 1, status := "processed" }

/-! ### Helper lemmas about the store operations -/

theorem markOne_length (ds : List Chunk) (i : Nat) :
    (markOne ds i).length = ds.length := by
  unfold markOne
  split <;> simp

theorem foldl_markOne_length (idxs : List Nat) (ds : List Chunk) :
    (idxs.foldl markOne ds).length = ds.length := by
  induction idxs generalizing ds with
  | nil => rfl
  | cons i rest ih => rw [List.foldl_cons, ih, markOne_length]

theorem markOne_getElem? (ds : List Chunk) (i j : Nat) :
    (markOne ds i)[j]? =
      if i = j then ds[j]?.map (fun c => { c with deleted := true })
      else ds[j]? := by
  unfold markOne
  split
  · next h =>
    rw [List.getElem?_set]
    by_cases hij : i = j
    · subst hij
      simp [h, List.getElem?_eq_getElem h]
    · simp [hij]
  · next h =>
    by_cases hij : i = j
    · subst hij
      rw [List.getElem?_eq_none (le_of_not_lt h)]
      simp
    · simp [hij]

theorem foldl_markOne_getElem? (idxs : List Nat) (ds : List Chunk) (j : Nat) :
    (idxs.foldl markOne ds)[j]? =
      if j ∈ idxs then ds[j]?.map (fun c => { c with deleted := true })
      else ds[j]? := by
  induction idxs generalizing ds with
  | nil => simp
  | cons i rest ih =>
    rw [List.foldl_cons, ih, markOne_getElem?]
    by_cases hij : i = j
    · subst hij
      by_cases hj : i ∈ rest
      · simp only [hj, if_true, List.mem_cons, true_or, Option.map_map]
        cases ds[i]? <;> rfl
      · simp [hj, List.mem_cons]
    · by_cases hj : j ∈ rest <;> simp [hij, hj, List.mem_cons, Ne.symm hij]

theorem assocFind_assocSet_self (m : List (String × List Nat)) (k : String)
    (v : List Nat) : assocFind (assocSet m k v) k = some v := by
  induction m with
  | nil => simp [assocSet, assocFind]
  | cons p rest ih =>
    obtain ⟨k1, v1⟩ := p
    unfold assocSet
    by_cases h : k1 = k
    · simp [h, assocFind]
    · simp [h, assocFind, ih]

theorem assocFind_filter_self (m : List (String × List Nat)) (k : String) :
    assocFind (m.filter fun p => p.1 != k) k = none := by
  induction m with
  | nil => rfl
  | cons p rest ih =>
    obtain ⟨k1, v1⟩ := p
    by_cases h : k1 = k
    · simpa [h] using ih
    · simp only [List.filter_cons]
      simp [h, assocFind, ih]

theorem assocFind_filter_ne (m : List (String × List Nat)) (k k2 : String)
    (h : k2 ≠ k) :
    assocFind (m.filter fun p => p.1 != k) k2 = assocFind m k2 := by
  induction m with
  | nil => rfl
  | cons p rest ih =>
    obtain ⟨k1, v1⟩ := p
    by_cases h1 : k1 = k
    · subst h1
      simp only [List.filter_cons]
      simp [assocFind, Ne.symm h, ih]
    · simp only [List.filter_cons]
      simp only [h1, bne_iff_ne, ne_eq, not_false_iff, if_true, decide_not]
      by_cases h2 : k1 = k2 <;> simp [assocFind, h1, h2, ih]

/-- The FAISS model always returns exactly `k` result slots per query. -/
theorem faissSearch_length (index : List (List Int)) (q : List Int) (k : Nat) :
    (faissSearch index q k).length = k := by
  simp only [faissSearch]
  rw [List.length_append, List.length_replicate, List.length_take]
  omega

theorem pyIndex_mem (l : List Chunk) (i : Int) (c : Chunk)
    (h : pyIndex l i = some c) : c ∈ l := by
  unfold pyIndex at h
  split at h
  · exact List.getElem?_mem h
  · split at h
    · exact List.getElem?_mem h
    · exact absurd h (by simp)

theorem resolveHit_mem (vs : VectorStore) (p : Int × WithBot Int)
    (c : Chunk × WithBot Int) (h : resolveHit vs p = some c) : c.1 ∈ vs.documents := by
  unfold resolveHit at h
  split at h
  · obtain ⟨d, hd, heq⟩ := Option.map_eq_some'.mp h
    rw [← heq]
    exact pyIndex_mem vs.documents p.1 d hd
  · exact absurd h (by simp)

theorem resolveHit_snd (vs : VectorStore) (p : Int × WithBot Int)
    (c : Chunk × WithBot Int) (h : resolveHit vs p = some c) : c.2 = p.2 := by
  unfold resolveHit at h
  split at h
  · obtain ⟨d, hd, heq⟩ := Option.map_eq_some'.mp h
    rw [← heq]
  · exact absurd h (by simp)

theorem fst_mem_of_mem_rankChunks (vs : VectorStore) (qe : List Int) (k : Nat)
    (p : Chunk × WithBot Int) (hp : p ∈ rankChunks vs qe k) :
    p.1 ∈ vs.documents := by
  obtain ⟨a, _, hfa⟩ := List.mem_filterMap.mp hp
  exact resolveHit_mem vs a p hfa

theorem fst_mem_of_mem_similarity_search (encode : String → List Int)
    (vs : VectorStore) (q : String) (k : Nat) (p : Chunk × WithBot Int)
    (hp : p ∈ similarity_search encode vs q k) : p.1 ∈ vs.documents := by
  unfold similarity_search at hp
  split at hp
  · exact fst_mem_of_mem_rankChunks vs (encode q) k p hp
  · exact absurd hp (by simp)

/-- After inserting a document `D` into a store that held no chunk of `D` and
then soft-deleting `D`, every stored chunk whose `doc_id` is `D` carries
`deleted = true`. -/
theorem insert_delete_marks_all (encode : String → List Int) (vs : VectorStore)
    (chunks : List RawChunk) (D : String)
    (hfresh : ∀ c ∈ vs.documents, c.doc_id ≠ D) :
    ∀ c ∈ (delete_document (add_documents encode vs chunks D) D).documents,
      c.doc_id = D → c.deleted = true := by
  intro c hc hD
  have hfind : assocFind (add_documents encode vs chunks D).doc_to_chunks D =
      some (List.range' vs.documents.length chunks.length) :=
    assocFind_assocSet_self _ _ _
  have hdocs : (delete_document (add_documents encode vs chunks D) D).documents =
      (List.range' vs.documents.length chunks.length).foldl markOne
        (add_documents encode vs chunks D).documents := by
    unfold delete_document
    rw [hfind]
  rw [hdocs] at hc
  obtain ⟨j, hj⟩ := List.mem_iff_getElem?.mp hc
  rw [foldl_markOne_getElem?] at hj
  by_cases hmem : j ∈ List.range' vs.documents.length chunks.length
  · rw [if_pos hmem] at hj
    obtain ⟨c0, _, heq⟩ := Option.map_eq_some'.mp hj
    rw [← heq]
  · rw [if_neg hmem] at hj
    rw [List.mem_range'_1, not_and_or] at hmem
    have hlen : (add_documents encode vs chunks D).documents =
        vs.documents ++ chunks.map fun ch =>
          { content := ch.content, source := ch.source, chunk_id := ch.chunk_id,
            total_chunks := ch.total_chunks, doc_id := D, deleted := false : Chunk } := rfl
    rcases hmem with hlt | hge
    · have hjlt : j < vs.documents.length := lt_of_not_le hlt
      rw [hlen, List.getElem?_append_left hjlt] at hj
      exact absurd hD (hfresh c (List.getElem?_mem hj))
    · have hjge : vs.documents.length + chunks.length ≤ j := le_of_not_lt hge
      rw [hlen, List.getElem?_append_right (by omega)] at hj
      rw [List.getElem?_eq_none (by simp; omega)] at hj
      exact absurd hj (by simp)

/-! ### C1: soft-delete exclusion -/

/-- C1 as stated is false: after inserting document `"doc1"` (one chunk) and
soft-deleting it via `delete_document`, `similarity_search` still returns a
chunk whose `doc_id` is `"doc1"` — the store itself never filters deleted
chunks out of search results. -/
theorem C1_counterexample :
    (similarity_search encA storeOneDeleted "query" 5).any
      (fun p => p.1.doc_id == "doc1") = true := by
  decide

/-- C1 amended: the store's `similarity_search` itself may return soft-deleted
chunks, but after inserting a fresh document `D` and then soft-deleting it via
`delete_document`, every chunk of `D` is marked `deleted`, so the deleted-chunk
filter of `RAGPipeline.query` (STEP 2) removes every chunk of `D` from the
surviving results, regardless of the requested `k`. -/
theorem C1_soft_delete_exclusion (encode : String → List Int) (vs : VectorStore)
    (chunks : List RawChunk) (D q : String) (k : Nat)
    (hfresh : ∀ c ∈ vs.documents, c.doc_id ≠ D) :
    ∀ p ∈ (similarity_search encode
        (delete_document (add_documents encode vs chunks D) D) q k).filter
        (fun p => !p.1.deleted), p.1.doc_id ≠ D := by
  intro p hp hD
  obtain ⟨hmem, hdel⟩ := List.mem_filter.mp hp
  have h1 : p.1 ∈ (delete_document (add_documents encode vs chunks D) D).documents :=
    fst_mem_of_mem_similarity_search encode _ q k p hmem
  have h2 := insert_delete_marks_all encode vs chunks D hfresh p.1 h1 hD
  rw [h2] at hdel
  exact absurd hdel (by simp)

/-- Witness for C1: in a two-document store where `"docB"` was inserted last
and then soft-deleted, every surviving search result is from another document. -/
theorem C1_witness :
    (((similarity_search encA storeABdelB "query" 5).filter
      fun p => !p.1.deleted).all fun p => p.1.doc_id != "docB") = true := by
  apply List.all_eq_true.mpr
  intro p hp
  exact bne_iff_ne.mpr
    (C1_soft_delete_exclusion encA
      (add_documents encA emptyStore [⟨"alpha", "a.txt", 0, 1⟩] "docA")
      [⟨"beta", "b.txt", 0, 1⟩] "docB" "query" 5 (by decide) p hp)

/-! ### C2: where the deleted-filter sits relative to the k cap -/

/-- C2 as stated is false: in a store holding a deleted chunk (`"alpha"`, the
top-ranked one) and a live chunk (`"beta"`), a search with `k = 1` returns only
the deleted chunk, so the number of surviving results is `0`, strictly below
`min(k, number of non-deleted chunks) = 1` — the deleted-filter runs after the
`k` cap, not before it. -/
theorem C2_counterexample :
    ((similarity_search encA storeABdelA "query" 1).filter
      fun p => !p.1.deleted).length = 0 ∧
    min 1 ((storeABdelA.documents.filter fun c => !c.deleted).length) = 1 := by
  decide

/-- C2 amended: the deleted-filter of the pipeline runs after the `k` cap of
the store search: the citations of `RAGPipeline.query` are exactly the
non-deleted entries among the at-most-`k` (`k = 5`) results returned by
`similarity_search`, so soft-deleted entries can push the number of surviving
results below `min(k, valid_count)`. -/
theorem C2_filter_after_cap (encode : String → List Int)
    (g : String → String → Except String String) (vs : VectorStore)
    (question : String) (chat_history : List Msg) :
    (query encode g vs question chat_history).sources.length =
      ((similarity_search encode vs question 5).filter
        fun p => !p.1.deleted).length ∧
    ∀ k, (similarity_search encode vs question k).length ≤ k := by
  constructor
  · simp only [query, queryAfterSearch]
    split
    · next h =>
      rw [List.isEmpty_iff] at h
      simp [h]
    · split
      · next h2 =>
        rw [List.isEmpty_iff] at h2
        simp [h2]
      · split <;> simp
  · intro k
    unfold similarity_search
    split
    · calc (rankChunks vs (encode question) k).length
          ≤ (faissSearch vs.index (encode question) k).length :=
            List.length_filterMap_le _ _
        _ = k := faissSearch_length vs.index (encode question) k
    · simp

/-! ### C3: exception propagation out of the query pipeline -/

/-- C3 as stated is false: a failure raised while embedding/searching is not
converted into an answer dict — it propagates out of `RAGPipeline.query`
(whose try/except covers only the generation call), and the `/query` handler
of `main.py` turns it into an HTTP 500 error, not an Answer. -/
theorem C3_counterexample :
    queryE encFailE gOk storeOne "query" [] = .error "EmbeddingError" ∧
    query_documents encFailE gOk [("doc1", docInfo1)] storeOne "query" [] =
      .httpError 500
        "An error occurred while processing your question: EmbeddingError" := by
  exact ⟨rfl, rfl⟩

/-- C3 amended: whenever the embedding/search step succeeds (in particular
whenever the store is non-empty and `model.encode` does not raise),
`RAGPipeline.query` returns an answer dict for every generator behaviour —
generation failures are caught and converted — but an embedding/search failure
propagates as an exception to the caller. -/
theorem C3_query_total_after_search (encodeE : String → Except String (List Int))
    (g : String → String → Except String String) (vs : VectorStore)
    (question : String) (chat_history : List Msg)
    (hemb : ∃ v, encodeE question = .ok v) :
    ∃ a, queryE encodeE g vs question chat_history = .ok a := by
  obtain ⟨v, hv⟩ := hemb
  unfold queryE similarity_searchE
  split
  · rw [hv]
    exact ⟨_, rfl⟩
  · exact ⟨_, rfl⟩

/-- Witness for C3: on a one-document store with a succeeding embedder and a
generator that always raises, the pipeline still returns an answer dict. -/
theorem C3_witness :
    (queryE encAE gFail storeOne "query" []).isOk = true := by
  obtain ⟨a, ha⟩ := C3_query_total_after_search encAE gFail storeOne "query" []
    ⟨encA "query", rfl⟩
  rw [ha]
  rfl

/-! ### The shape of `queryAfterSearch`, with the user prompt abstracted -/

/-- `queryAfterSearch` unfolded, with some user prompt `up` fed to the
generator: makes the branch structure of `RAGPipeline.query` after STEP 1
available for case analysis. -/
theorem queryAfterSearch_spec (g : String → String → Except String String)
    (question : String) (chat_history : List Msg)
    (sr : List (Chunk × WithBot Int)) :
    ∃ up, queryAfterSearch g question chat_history sr =
      (if sr.isEmpty then
        { answer := noInfoAnswer, sources := [], confidence := 0 }
      else if (sr.filter fun p => !p.1.deleted).isEmpty then
        { answer := deletedAnswer, sources := [], confidence := 0 }
      else
        match g systemPrompt up with
        | .ok response =>
          { answer := response,
            sources := (sr.filter fun p => !p.1.deleted).map mkCitation,
            confidence := avgScore ((sr.filter fun p => !p.1.deleted).map Prod.snd) }
        | .error e =>
          { answer := genErrorAnswer e,
            sources := (sr.filter fun p => !p.1.deleted).map mkCitation,
            confidence := 0 } : Answer) :=
  ⟨_, rfl⟩

/-! ### C4: confidence is the mean of the surviving scores -/

/-- C4: the confidence returned by `RAGPipeline.query` is `0.0` whenever the
returned citations are empty, and whenever generation succeeds and the
citations are non-empty it is the unweighted arithmetic mean of the similarity
scores of the surviving retrieved chunks (the citations' scores). -/
theorem C4_confidence_mean (encode : String → List Int)
    (g : String → String → Except String String) (vs : VectorStore)
    (question : String) (chat_history : List Msg) :
    ((query encode g vs question chat_history).sources = [] →
      (query encode g vs question chat_history).confidence = 0) ∧
    ((∀ s u, ∃ t, g s u = .ok t) →
      (query encode g vs question chat_history).sources ≠ [] →
      (query encode g vs question chat_history).confidence =
        avgScore ((query encode g vs question chat_history).sources.map
          Citation.confidence)) := by
  obtain ⟨up, hq⟩ := queryAfterSearch_spec g question chat_history
    (similarity_search encode vs question 5)
  simp only [query]
  rw [hq]
  split
  · exact ⟨fun _ => rfl, fun _ hne => absurd rfl hne⟩
  · split
    · exact ⟨fun _ => rfl, fun _ hne => absurd rfl hne⟩
    · next h2 =>
      constructor
      · intro hs
        exfalso
        apply h2
        cases hr : g systemPrompt up with
        | ok t =>
          rw [hr] at hs
          simp only [List.map_eq_nil_iff] at hs
          rw [hs]
          rfl
        | error e =>
          rw [hr] at hs
          simp only [List.map_eq_nil_iff] at hs
          rw [hs]
          rfl
      · intro hgen _
        obtain ⟨t, ht⟩ := hgen systemPrompt up
        rw [ht]
        have hcomp : Citation.confidence ∘ mkCitation =
            (Prod.snd : Chunk × WithBot Int → WithBot Int) :=
          funext fun p => rfl
        show avgScore _ = avgScore _
        rw [List.map_map, hcomp]

/-- Witness for C4: on a one-document store with a succeeding generator the
returned confidence equals the mean of the citation scores. -/
theorem C4_witness :
    (query encA gOk storeOne "query" []).confidence =
      avgScore ((query encA gOk storeOne "query" []).sources.map
        Citation.confidence) := by
  exact (C4_confidence_mean encA gOk storeOne "query" []).2
    (fun s u => ⟨"generated answer", rfl⟩) (by decide)

/-! ### C5: the generation-failure path -/

/-- C5: when retrieval produced at least one surviving chunk and the
generation call raises, `RAGPipeline.query` returns the explanatory
generation-failure text, the citations computed from retrieval unchanged, and
confidence forced to `0.0`. -/
theorem C5_generation_failure (encode : String → List Int)
    (g : String → String → Except String String) (vs : VectorStore)
    (question : String) (chat_history : List Msg) (err : String)
    (hg : ∀ s u, g s u = .error err)
    (hv : ((similarity_search encode vs question 5).filter
      fun p => !p.1.deleted) ≠ []) :
    (query encode g vs question chat_history).answer = genErrorAnswer err ∧
    (query encode g vs question chat_history).sources =
      ((similarity_search encode vs question 5).filter
        fun p => !p.1.deleted).map mkCitation ∧
    (query encode g vs question chat_history).confidence = 0 := by
  obtain ⟨up, hq⟩ := queryAfterSearch_spec g question chat_history
    (similarity_search encode vs question 5)
  simp only [query]
  rw [hq]
  have hsr : ¬ ((similarity_search encode vs question 5).isEmpty = true) := by
    rw [List.isEmpty_iff]
    intro h
    apply hv
    rw [h]
    rfl
  have hval : ¬ (((similarity_search encode vs question 5).filter
      fun p => !p.1.deleted).isEmpty = true) := by
    rw [List.isEmpty_iff]
    exact hv
  rw [if_neg hsr, if_neg hval, hg systemPrompt up]
  exact ⟨rfl, rfl, rfl⟩

/-- Witness for C5: concrete store with a surviving chunk and a generator that
always raises `"boom"`. -/
theorem C5_witness :
    (query encA gFail storeOne "query" []).answer = genErrorAnswer "boom" ∧
    (query encA gFail storeOne "query" []).sources =
      ((similarity_search encA storeOne "query" 5).filter
        fun p => !p.1.deleted).map mkCitation ∧
    (query encA gFail storeOne "query" []).confidence = 0 := by
  exact C5_generation_failure encA gFail storeOne "query" [] "boom"
    (fun s u => rfl) (by decide)

/-! ### C6: degenerate retrieval paths never invoke generation -/

/-- C6: when the search returns no results, or none survive the deleted
filter, `RAGPipeline.query` returns one of the two canned no-relevant-
information answers with empty citations and confidence `0.0`, and the result
does not depend on the generator — generation is never invoked. -/
theorem C6_degenerate_paths (encode : String → List Int)
    (g : String → String → Except String String) (vs : VectorStore)
    (question : String) (chat_history : List Msg)
    (h : similarity_search encode vs question 5 = [] ∨
      (similarity_search encode vs question 5).filter
        (fun p => !p.1.deleted) = []) :
    ((query encode g vs question chat_history).answer = noInfoAnswer ∨
      (query encode g vs question chat_history).answer = deletedAnswer) ∧
    (query encode g vs question chat_history).sources = [] ∧
    (query encode g vs question chat_history).confidence = 0 ∧
    ∀ g2, query encode g2 vs question chat_history =
      query encode g vs question chat_history := by
  by_cases hsr : similarity_search encode vs question 5 = []
  · have hall : ∀ g2 : String → String → Except String String,
        query encode g2 vs question chat_history =
          { answer := noInfoAnswer, sources := [], confidence := 0 } := by
      intro g2
      obtain ⟨up, hq⟩ := queryAfterSearch_spec g2 question chat_history
        (similarity_search encode vs question 5)
      simp only [query]
      rw [hq, if_pos (by rw [List.isEmpty_iff]; exact hsr)]
    rw [hall g]
    exact ⟨Or.inl rfl, rfl, rfl, fun g2 => hall g2⟩
  · have hfil : (similarity_search encode vs question 5).filter
        (fun p => !p.1.deleted) = [] := h.resolve_left hsr
    have hall : ∀ g2 : String → String → Except String String,
        query encode g2 vs question chat_history =
          { answer := deletedAnswer, sources := [], confidence := 0 } := by
      intro g2
      obtain ⟨up, hq⟩ := queryAfterSearch_spec g2 question chat_history
        (similarity_search encode vs question 5)
      simp only [query]
      rw [hq, if_neg (by rw [List.isEmpty_iff]; exact hsr),
        if_pos (by rw [List.isEmpty_iff]; exact hfil)]
    rw [hall g]
    exact ⟨Or.inr rfl, rfl, rfl, fun g2 => hall g2⟩

/-- Witness for C6: a query against the empty store takes the no-results path
for any generator. -/
theorem C6_witness :
    ((query encA gOk emptyStore "query" []).answer = noInfoAnswer ∨
      (query encA gOk emptyStore "query" []).answer = deletedAnswer) ∧
    (query encA gOk emptyStore "query" []).sources = [] ∧
    (query encA gOk emptyStore "query" []).confidence = 0 ∧
    query encA gFail emptyStore "query" [] = query encA gOk emptyStore "query" [] := by
  obtain ⟨h1, h2, h3, h4⟩ := C6_degenerate_paths encA gOk emptyStore "query" []
    (Or.inl rfl)
  exact ⟨h1, h2, h3, h4 gFail⟩

/-! ### C7: deterministic descending ordering of search results -/

/-- The FAISS model's result rows are sorted: descending score, ties by
ascending vector index, with the padding rows (score `⊥`) at the end. -/
theorem faissSearch_sorted (index : List (List Int)) (q : List Int) (k : Nat) :
    (faissSearch index q k).Sorted resLE := by
  simp only [faissSearch]
  show List.Pairwise resLE _
  rw [List.pairwise_append]
  refine ⟨?_, ?_, ?_⟩
  · exact (List.sorted_insertionSort resLE _).sublist (List.take_sublist _ _)
  · exact List.pairwise_replicate.mpr (Or.inr (Or.inr ⟨rfl, le_refl _⟩))
  · intro x hx y hy
    have hx2 : x ∈ List.insertionSort resLE (index.enum.map fun p =>
        ((p.1 : Int), ((innerProduct q p.2 : Int) : WithBot Int))) :=
      List.mem_of_mem_take hx
    have hx3 := (List.perm_insertionSort resLE _).mem_iff.mp hx2
    obtain ⟨p, _, rfl⟩ := List.mem_map.mp hx3
    rw [List.eq_of_mem_replicate hy]
    exact Or.inl (WithBot.bot_lt_coe _)

/-- The scores of the kept search results are descending. -/
theorem rankChunks_snd_sorted (vs : VectorStore) (qe : List Int) (k : Nat) :
    ((rankChunks vs qe k).map Prod.snd).Sorted (fun a b => b ≤ a) := by
  unfold rankChunks
  apply (List.pairwise_map).mpr
  apply (List.pairwise_filterMap).mpr
  apply List.Pairwise.imp ?_ (faissSearch_sorted vs.index qe k)
  intro a b hab c hc d hd
  rw [resolveHit_snd vs a c (Option.mem_def.mp hc),
    resolveHit_snd vs b d (Option.mem_def.mp hd)]
  rcases hab with h | ⟨h, _⟩
  · exact le_of_lt h
  · exact h.ge

/-- C7: for a fixed store and query, `similarity_search` returns at most `k`
results; the returned scores are descending; the underlying FAISS rows
(vector index, score) are sorted by descending score with ties broken by
ascending index; and the result is a function of the query embedding alone —
repeated calls (any embedder agreeing on the query) return the identical
ordered sequence. -/
theorem C7_deterministic_ordering (encode encode2 : String → List Int)
    (vs : VectorStore) (q : String) (k : Nat) :
    (similarity_search encode vs q k).length ≤ k ∧
    ((similarity_search encode vs q k).map Prod.snd).Sorted (fun a b => b ≤ a) ∧
    (faissSearch vs.index (encode q) k).Sorted resLE ∧
    (encode q = encode2 q →
      similarity_search encode vs q k = similarity_search encode2 vs q k) := by
  refine ⟨?_, ?_, faissSearch_sorted vs.index (encode q) k, ?_⟩
  · unfold similarity_search
    split
    · calc (rankChunks vs (encode q) k).length
          ≤ (faissSearch vs.index (encode q) k).length :=
            List.length_filterMap_le _ _
        _ = k := faissSearch_length _ _ _
    · simp
  · unfold similarity_search
    split
    · exact rankChunks_snd_sorted vs (encode q) k
    · exact List.sorted_nil
  · intro h
    unfold similarity_search
    rw [h]

/-- Witness for C7 at a concrete store, query and `k`. -/
theorem C7_witness :
    (similarity_search encA storeOne "query" 2).length ≤ 2 ∧
    ((similarity_search encA storeOne "query" 2).map Prod.snd).Sorted
      (fun a b => b ≤ a) ∧
    (faissSearch storeOne.index (encA "query") 2).Sorted resLE ∧
    similarity_search encA storeOne "query" 2 =
      similarity_search encA storeOne "query" 2 := by
  obtain ⟨h1, h2, h3, h4⟩ := C7_deterministic_ordering encA encA storeOne "query" 2
  exact ⟨h1, h2, h3, h4 rfl⟩

/-! ### C8: searching an empty store -/

/-- C8: on a store holding zero chunks, `similarity_search` returns the empty
sequence for every query and every `k`, and never raises — even when the
embedder itself would raise, because the code returns before encoding. -/
theorem C8_empty_store (encode : String → List Int)
    (encodeE : String → Except String (List Int)) (vs : VectorStore)
    (q : String) (k : Nat) (h : vs.index = []) :
    similarity_search encode vs q k = [] ∧
    similarity_searchE encodeE vs q k = .ok [] := by
  have hinit : vs.is_initialized = false := by
    simp [VectorStore.is_initialized, h]
  constructor
  · unfold similarity_search
    rw [hinit]
    rfl
  · unfold similarity_searchE
    rw [hinit]
    rfl

/-- Witness for C8: the freshly constructed store, with an embedder that would
raise if it were called. -/
theorem C8_witness :
    similarity_search encA emptyStore "query" 3 = [] ∧
    similarity_searchE encFailE emptyStore "query" 3 = .ok [] :=
  C8_empty_store encA encFailE emptyStore "query" 3 rfl

/-! ### C9: the FAISS padding label -1 slips through the validity guard -/

/-- C9 is right and the code is wrong: the guard `idx < len(self.documents)`
(commented "Make sure index is valid") admits the FAISS padding label `-1`,
and `self.documents[-1]` is Python negative indexing — so on a one-chunk store
a search with `k = 2` returns the same stored chunk twice, the second copy
produced by the padding row with the sentinel score. -/
theorem C9_padding_bug :
    similarity_search encA storeOne "query" 2 =
      [(⟨"hello world", "a.txt", 0, 1, "doc1", false⟩, ((1 : Int) : WithBot Int)),
       (⟨"hello world", "a.txt", 0, 1, "doc1", false⟩, (⊥ : WithBot Int))] := by
  decide

/-! ### C10: delete_document only flips deleted flags and drops the mapping -/

/-- C10: for a store whose mapping lists `doc_id`'s chunk slots (all belonging
to that document), `delete_document` leaves the FAISS index untouched, keeps
the documents list the same length, rewrites exactly the listed slots to the
same chunk with `deleted := true` (contents, embeddings and all other metadata
unchanged), leaves every chunk of other documents unchanged, removes `doc_id`
from the mapping and preserves every other mapping entry. -/
theorem C10_delete_frame (vs : VectorStore) (d : String) (idxs : List Nat)
    (hd : assocFind vs.doc_to_chunks d = some idxs)
    (hmap : ∀ j ∈ idxs, (vs.documents[j]?).all (fun c => c.doc_id == d) = true) :
    (delete_document vs d).index = vs.index ∧
    (delete_document vs d).documents.length = vs.documents.length ∧
    (∀ (j : Nat) (c : Chunk), vs.documents[j]? = some c →
      (delete_document vs d).documents[j]? =
        some (if j ∈ idxs then { c with deleted := true } else c)) ∧
    (∀ (j : Nat) (c : Chunk), vs.documents[j]? = some c → c.doc_id ≠ d →
      (delete_document vs d).documents[j]? = some c) ∧
    assocFind (delete_document vs d).doc_to_chunks d = none ∧
    (∀ d2, d2 ≠ d → assocFind (delete_document vs d).doc_to_chunks d2 =
      assocFind vs.doc_to_chunks d2) := by
  have hdel : delete_document vs d =
      { index := vs.index, documents := idxs.foldl markOne vs.documents,
        doc_to_chunks := vs.doc_to_chunks.filter fun p => p.1 != d } := by
    unfold delete_document
    rw [hd]
  refine ⟨?_, ?_, ?_, ?_, ?_, ?_⟩
  · rw [hdel]
  · rw [hdel]
    exact foldl_markOne_length idxs vs.documents
  · intro j c hc
    rw [hdel]
    show (idxs.foldl markOne vs.documents)[j]? = _
    rw [foldl_markOne_getElem?]
    by_cases hj : j ∈ idxs <;> simp [hj, hc]
  · intro j c hc hne
    have hj : j ∉ idxs := by
      intro hj
      have h3 := hmap j hj
      rw [hc] at h3
      exact hne (by simpa using h3)
    rw [hdel]
    show (idxs.foldl markOne vs.documents)[j]? = some c
    rw [foldl_markOne_getElem?, if_neg hj]
    exact hc
  · rw [hdel]
    exact assocFind_filter_self _ _
  · intro d2 h2
    rw [hdel]
    exact assocFind_filter_ne _ _ _ h2

/-- Witness for C10: deleting `"docA"` from the two-document store. -/
theorem C10_witness :
    (delete_document storeAB "docA").index = storeAB.index ∧
    (delete_document storeAB "docA").documents.length =
      storeAB.documents.length ∧
    assocFind (delete_document storeAB "docA").doc_to_chunks "docA" = none ∧
    assocFind (delete_document storeAB "docA").doc_to_chunks "docB" =
      assocFind storeAB.doc_to_chunks "docB" := by
  obtain ⟨h1, h2, h3, h4, h5, h6⟩ := C10_delete_frame storeAB "docA" [0]
    (by decide) (by decide)
  exact ⟨h1, h2, h5, h6 "docB" (by decide)⟩

end RAG
